import Mathlib

/-!
# Verification of the sspengMock request-capture service

Shallow embedding of the request-log store of `src/function_app.py` (and the
simple variant `src/MockApiFunction/app.py`).  Python dictionaries are embedded
as insertion-ordered association lists, Python/JSON values as an inductive
`Json` type, and the fallible Azure-storage primitives as an explicit
environment record whose fields give the outcome of each I/O call.
-/

namespace SspengMock

/-- A JSON value, as produced by Python's `json.loads`.  Numeric literals are
kept as their source text (the claims never compute with numbers, and this
avoids attributing float semantics to the embedding).  `null` doubles as
Python's `None`, exactly as in the source, where `json.loads(b"null")` and an
absent body are both the Python value `None`. -/
inductive Json where
  | null : Json
  | bool (b : Bool) : Json
  | num (lit : String) : Json
  | str (s : String) : Json
  | arr (elems : List Json) : Json
  | obj (fields : List (String × Json)) : Json
deriving Repr

/-- One captured request record, as built by `main_mock_endpoint`
(src/function_app.py lines 159-180) and `mock_endpoint`
(src/MockApiFunction/app.py lines 23-42).  The `body` field is the Python
value stored at line 172/176/180: a parsed JSON value, a decoded-text string
(`Json.str`), or `None` (`Json.null`). -/
structure Record where
  timestamp : String
  method : String
  path : String
  query : List (String × String)
  headers : List (String × String)
  body : Json
  instance_id : String
  instance_start : String
deriving Repr

/-- The in-memory `REQUEST_LOG`: a Python dict from endpoint key to list of
records, embedded as an insertion-ordered association list. -/
def RequestLog : Type := List (String × List Record)

instance : Inhabited RequestLog := ⟨([] : List (String × List Record))⟩

namespace RequestLog

/-- Embeds `REQUEST_LOG.get(k, [])` and `REQUEST_LOG[k]` on a present key:
the value of the first binding of `k`, or `[]` when `k` is absent. -/
def getD (log : RequestLog) (k : String) : List Record :=
  match log with
  | [] => []
  | (k', v) :: rest => if k' = k then v else getD rest k

/-- Embeds the Python membership test `k in REQUEST_LOG`. -/
def containsKey (log : RequestLog) (k : String) : Bool :=
  match log with
  | [] => false
  | (k', _) :: rest => if k' = k then true else containsKey rest k

/-- Embeds `del REQUEST_LOG[k]` (removes every binding of `k`; a Python dict
holds at most one, so on dict-shaped lists this is that one deletion). -/
def eraseKey (log : RequestLog) (k : String) : RequestLog :=
  match log with
  | [] => []
  | (k', v) :: rest =>
      if k' = k then eraseKey rest k else (k', v) :: eraseKey rest k

/-- Embeds `REQUEST_LOG.setdefault(k, []).append(r)`: appends `r` to the first
binding of `k` in place, or adds the binding `(k, [r])` at the end (Python
dicts keep insertion order). -/
def setdefaultAppend (log : RequestLog) (k : String) (r : Record) : RequestLog :=
  match log with
  | [] => [(k, [r])]
  | (k', v) :: rest =>
      if k' = k then (k', v ++ [r]) :: rest
      else (k', v) :: setdefaultAppend rest k r

end RequestLog

/-! ## UTF-8 decoding, modelling Python's `bytes.decode("utf-8")` -/

/-- Tests for a UTF-8 continuation byte (0x80-0xBF). -/
def isCont (b : Nat) : Bool := 0x80 ≤ b && b ≤ 0xBF

/-- Strict UTF-8 decoding of a byte sequence, modelling Python's
`bytes.decode("utf-8")` as called at src/function_app.py line 176 and
src/MockApiFunction/app.py line 38 (and `blob_data.decode` at line 51):
rejects truncated and ill-formed sequences, overlong encodings and encoded
surrogates; `none` models the `UnicodeDecodeError` exception. -/
def utf8DecodeChars : List Nat → Option (List Char)
  | [] => some []
  | b :: bs =>
    if b ≤ 0x7F then
      (utf8DecodeChars bs).map (fun cs => Char.ofNat b :: cs)
    else if 0xC2 ≤ b ∧ b ≤ 0xDF then
      match bs with
      | b1 :: bs' =>
        if isCont b1 then
          (utf8DecodeChars bs').map
            (fun cs => Char.ofNat ((b - 0xC0) * 0x40 + (b1 - 0x80)) :: cs)
        else none
      | [] => none
    else if 0xE0 ≤ b ∧ b ≤ 0xEF then
      match bs with
      | b1 :: b2 :: bs' =>
        if isCont b1 && isCont b2 && (b ≠ 0xE0 || decide (0xA0 ≤ b1))
            && (b ≠ 0xED || decide (b1 ≤ 0x9F)) then
          (utf8DecodeChars bs').map (fun cs =>
            Char.ofNat ((b - 0xE0) * 0x1000 + (b1 - 0x80) * 0x40 + (b2 - 0x80)) :: cs)
        else none
      | _ => none
    else if 0xF0 ≤ b ∧ b ≤ 0xF4 then
      match bs with
      | b1 :: b2 :: b3 :: bs' =>
        if isCont b1 && isCont b2 && isCont b3 && (b ≠ 0xF0 || decide (0x90 ≤ b1))
            && (b ≠ 0xF4 || decide (b1 ≤ 0x8F)) then
          (utf8DecodeChars bs').map (fun cs =>
            Char.ofNat ((b - 0xF0) * 0x40000 + (b1 - 0x80) * 0x1000
              + (b2 - 0x80) * 0x40 + (b3 - 0x80)) :: cs)
        else none
      | _ => none
    else none

/-- UTF-8 decoding into a `String`. -/
def utf8Decode (bytes : List Nat) : Option String :=
  (utf8DecodeChars bytes).map fun cs => String.mk cs

/-! ## JSON parsing, modelling Python's `json.loads` -/

/-- JSON whitespace (the four characters `json.loads` skips). -/
def isJsonWs (c : Char) : Bool := c = ' ' || c = '\t' || c = '\n' || c = '\r'

/-- Drops leading JSON whitespace. -/
def skipWs : List Char → List Char
  | [] => []
  | c :: cs => if isJsonWs c then skipWs cs else c :: cs

/-- Consumes the literal `lit` from the front of `s`, returning the rest. -/
def dropLit : List Char → List Char → Option (List Char)
  | [], s => some s
  | _ :: _, [] => none
  | c :: cs, d :: ds => if c = d then dropLit cs ds else none

/-- Value of one hex digit. -/
def hexVal (c : Char) : Option Nat :=
  if '0' ≤ c ∧ c ≤ '9' then some (c.toNat - 48)
  else if 'a' ≤ c ∧ c ≤ 'f' then some (c.toNat - 87)
  else if 'A' ≤ c ∧ c ≤ 'F' then some (c.toNat - 55)
  else none

/-- Value of a four-hex-digit escape. -/
def hex4 (h1 h2 h3 h4 : Char) : Option Nat := do
  let a ← hexVal h1
  let b ← hexVal h2
  let c ← hexVal h3
  let d ← hexVal h4
  pure (a * 0x1000 + b * 0x100 + c * 0x10 + d)

/-- Parses the rest of a JSON string literal (after the opening quote),
returning the decoded characters and the input after the closing quote.
Handles the JSON escapes and surrogate-pair `\uXXXX` escapes; unescaped
control characters are rejected as in Python's strict mode.  (Python accepts
*unpaired* surrogate escapes, producing a lone-surrogate `str`; a Lean `Char`
cannot represent those, so this model rejects them — no claim exercises
that corner.) -/
def parseStrRest : List Char → Option (List Char × List Char)
  | [] => none
  | '"' :: cs => some ([], cs)
  | '\\' :: 'u' :: h1 :: h2 :: h3 :: h4 :: cs =>
    match hex4 h1 h2 h3 h4 with
    | none => none
    | some n =>
      if 0xD800 ≤ n ∧ n ≤ 0xDBFF then
        match cs with
        | '\\' :: 'u' :: g1 :: g2 :: g3 :: g4 :: cs' =>
          match hex4 g1 g2 g3 g4 with
          | none => none
          | some m =>
            if 0xDC00 ≤ m ∧ m ≤ 0xDFFF then
              (parseStrRest cs').map (fun (p : List Char × List Char) =>
                (Char.ofNat (0x10000 + (n - 0xD800) * 0x400 + (m - 0xDC00)) :: p.1, p.2))
            else none
        | _ => none
      else if 0xDC00 ≤ n ∧ n ≤ 0xDFFF then none
      else (parseStrRest cs).map (fun p => (Char.ofNat n :: p.1, p.2))
  | '\\' :: c :: cs =>
    (match c with
     | '"' => some '"'
     | '\\' => some '\\'
     | '/' => some '/'
     | 'b' => some (Char.ofNat 8)
     | 'f' => some (Char.ofNat 12)
     | 'n' => some '\n'
     | 'r' => some '\r'
     | 't' => some '\t'
     | _ => none).bind fun d =>
       (parseStrRest cs).map (fun (p : List Char × List Char) => (d :: p.1, p.2))
  | c :: cs =>
    if c.toNat ≤ 0x1F then none
    else (parseStrRest cs).map (fun p => (c :: p.1, p.2))

/-- Takes the longest run of decimal digits. -/
def takeDigits : List Char → List Char × List Char
  | [] => ([], [])
  | c :: cs =>
    if '0' ≤ c ∧ c ≤ '9' then
      let (ds, rest) := takeDigits cs
      (c :: ds, rest)
    else ([], c :: cs)

/-- Parses the integer part of a JSON number: `0` or a nonzero digit followed
by digits. -/
def parseIntPart : List Char → Option (List Char × List Char)
  | [] => none
  | c :: cs =>
    if c = '0' then some ([c], cs)
    else if '1' ≤ c ∧ c ≤ '9' then
      let (ds, rest) := takeDigits cs
      some (c :: ds, rest)
    else none

/-- Parses an optional fraction part `.digits`; on a malformed fraction the
input is left unconsumed (the stray character then fails the caller, as in
Python's tokenizer, whose number regex simply stops before it). -/
def parseFracPart : List Char → List Char × List Char
  | '.' :: cs =>
    match takeDigits cs with
    | ([], _) => ([], '.' :: cs)
    | (ds, rest) => ('.' :: ds, rest)
  | s => ([], s)

/-- Parses an optional exponent part `[eE][+-]?digits`; malformed exponents
are left unconsumed, as with `parseFracPart`. -/
def parseExpPart : List Char → List Char × List Char
  | e :: cs =>
    if e = 'e' ∨ e = 'E' then
      match cs with
      | sgn :: cs' =>
        if sgn = '+' ∨ sgn = '-' then
          match takeDigits cs' with
          | ([], _) => ([], e :: cs)
          | (ds, rest) => (e :: sgn :: ds, rest)
        else
          match takeDigits cs with
          | ([], _) => ([], e :: cs)
          | (ds, rest) => (e :: ds, rest)
      | [] => ([], [e])
    else ([], e :: cs)
  | [] => ([], [])

/-- Parses an unsigned JSON number, returning its literal text. -/
def parseUnsignedNum (s : List Char) : Option (String × List Char) :=
  match parseIntPart s with
  | none => none
  | some (ip, rest) =>
    let (fp, rest') := parseFracPart rest
    let (ep, rest'') := parseExpPart rest'
    some (String.mk (ip ++ fp ++ ep), rest'')

/-- Parses a JSON number token (Python's `json.loads` also accepts the
non-standard `NaN`, `Infinity` and `-Infinity`, which it does by default). -/
def parseNumToken : List Char → Option (Json × List Char)
  | '-' :: rest =>
    (match dropLit "Infinity".data rest with
     | some rest' => some (Json.num "-Infinity", rest')
     | none =>
       (parseUnsignedNum rest).map fun p => (Json.num ("-" ++ p.1), p.2))
  | s => (parseUnsignedNum s).map fun p => (Json.num p.1, p.2)

/-- Inserts a key/value pair into an object under Python-dict semantics: a
duplicate key keeps its original position and takes the new value (Python's
`json.loads` builds objects with exactly this `dict` update). -/
def insertField : List (String × Json) → String → Json → List (String × Json)
  | [], k, v => [(k, v)]
  | (k', v') :: rest, k, v =>
    if k' = k then (k', v) :: rest else (k', v') :: insertField rest k v

mutual

/-- Parses one JSON value after optional whitespace, returning the value and
the remaining input.  Fuel bounds the recursion depth; `json_loads` supplies
fuel larger than any derivation over its input needs. -/
def parseValue : Nat → List Char → Option (Json × List Char)
  | 0, _ => none
  | fuel + 1, s =>
    match skipWs s with
    | [] => none
    | c :: cs =>
      if c = '{' then parseMembers fuel cs []
      else if c = '[' then parseElems fuel cs []
      else if c = '"' then
        (parseStrRest cs).map fun p => (Json.str (String.mk p.1), p.2)
      else if c = 't' then
        (dropLit "rue".data cs).map fun rest => (Json.bool true, rest)
      else if c = 'f' then
        (dropLit "alse".data cs).map fun rest => (Json.bool false, rest)
      else if c = 'n' then
        (dropLit "ull".data cs).map fun rest => (Json.null, rest)
      else if c = 'N' then
        (dropLit "aN".data cs).map fun rest => (Json.num "NaN", rest)
      else if c = 'I' then
        (dropLit "nfinity".data cs).map fun rest => (Json.num "Infinity", rest)
      else parseNumToken (c :: cs)

/-- Parses the members of a JSON object, `acc` holding the members already
parsed; entered just after `\x7b` or after a comma. -/
def parseMembers : Nat → List Char → List (String × Json) → Option (Json × List Char)
  | 0, _, _ => none
  | fuel + 1, s, acc =>
    match skipWs s with
    | [] => none
    | c :: cs =>
      if (c == '}') && acc.isEmpty then some (Json.obj [], cs)
      else if c = '"' then
        match parseStrRest cs with
        | none => none
        | some (key, rest) =>
          match skipWs rest with
          | ':' :: rest' =>
            match parseValue fuel rest' with
            | none => none
            | some (v, rest'') =>
              let acc' := insertField acc (String.mk key) v
              match skipWs rest'' with
              | ',' :: rest''' => parseMembers fuel rest''' acc'
              | '}' :: rest''' => some (Json.obj acc', rest''')
              | _ => none
          | _ => none
      else none

/-- Parses the elements of a JSON array, `acc` holding (reversed) the
elements already parsed; entered just after `[` or after a comma. -/
def parseElems : Nat → List Char → List Json → Option (Json × List Char)
  | 0, _, _ => none
  | fuel + 1, s, acc =>
    match skipWs s with
    | c :: cs =>
      if (c == ']') && acc.isEmpty then some (Json.arr [], cs)
      else
        match parseValue fuel s with
        | none => none
        | some (v, rest) =>
          match skipWs rest with
          | ',' :: rest' => parseElems fuel rest' (v :: acc)
          | ']' :: rest' => some (Json.arr (v :: acc).reverse, rest')
          | _ => none
    | [] => none

end

/-- Models Python's `json.loads` on a string: parse one value, then require
only whitespace to remain. -/
def json_loads (s : String) : Option Json :=
  match parseValue (2 * s.data.length + 4) s.data with
  | some (j, rest) => if skipWs rest = [] then some j else none
  | none => none

/-! ## Body parsing (capture endpoints) -/

/-- Models `req.get_json()` of the Azure Functions runtime: decode the body
bytes as UTF-8 and parse them as JSON; both failure modes raise `ValueError`
in Python (a `UnicodeDecodeError` is a `ValueError`), merged here into
`none`. -/
def get_json (bytes : List Nat) : Option Json :=
  (utf8Decode bytes).bind fun s => json_loads s

/-- The body-parsing policy of src/function_app.py lines 170-181 and
src/MockApiFunction/app.py lines 32-42: try `req.get_json()`; on `ValueError`
fall back to `req.get_body().decode("utf-8")`; if that also raises, store
`None`. -/
def parse_body (bytes : List Nat) : Json :=
  match get_json bytes with
  | some j => j
  | none =>
    match utf8Decode bytes with
    | some s => Json.str s
    | none => Json.null

/-! ## Deserializing a persisted snapshot into the typed log -/

/-- First value bound to `k` in a JSON object's fields. -/
def assocFind : List (String × Json) → String → Option Json
  | [], _ => none
  | (k', v) :: rest, k => if k' = k then some v else assocFind rest k

/-- Reads a JSON object all of whose values are strings (the shape of the
`query` and `headers` fields of a persisted record). -/
def decodeStrPairs : List (String × Json) → Option (List (String × String))
  | [] => some []
  | (k, Json.str s) :: rest => (decodeStrPairs rest).map (fun l => (k, s) :: l)
  | _ => none

/-- Reads one persisted record object back into a `Record`.  The code keeps
whatever `json.loads` returned; this typed embedding accepts exactly the
record shape that the capture endpoints persist. -/
def decodeRecord : Json → Option Record
  | Json.obj fields =>
    match assocFind fields "timestamp", assocFind fields "method",
        assocFind fields "path", assocFind fields "query",
        assocFind fields "headers", assocFind fields "body",
        assocFind fields "instance_id", assocFind fields "instance_start" with
    | some (Json.str ts), some (Json.str m), some (Json.str p), some (Json.obj q),
        some (Json.obj h), some b, some (Json.str iid), some (Json.str ist) =>
      (decodeStrPairs q).bind fun q' =>
        (decodeStrPairs h).map fun h' =>
          { timestamp := ts, method := m, path := p, query := q', headers := h',
            body := b, instance_id := iid, instance_start := ist }
    | _, _, _, _, _, _, _, _ => none
  | _ => none

/-- Reads a JSON array of record objects. -/
def decodeRecordList : List Json → Option (List Record)
  | [] => some []
  | j :: rest =>
    (decodeRecord j).bind fun r =>
      (decodeRecordList rest).map fun rs => r :: rs

/-- Reads the fields of the persisted snapshot object. -/
def decodeLogFields : List (String × Json) → Option RequestLog
  | [] => some ([] : List (String × List Record))
  | (k, Json.arr xs) :: rest =>
    (decodeRecordList xs).bind fun rs =>
      (decodeLogFields rest).map fun (log : List (String × List Record)) => (k, rs) :: log
  | _ => none

/-- Reads a persisted snapshot (a JSON object mapping endpoint keys to arrays
of records) back into a typed `RequestLog`. -/
def decodeLog : Json → Option RequestLog
  | Json.obj fields => decodeLogFields fields
  | _ => none

/-- Deserializes blob content: `json.loads` composed with the typed reading. -/
def parseLogString (s : String) : Option RequestLog :=
  (json_loads s).bind decodeLog

/-! ## The Azure-storage environment and `load` / `save` -/

/-- Outcome of `blob_client.download_blob().readall()` followed by the UTF-8
decode at src/function_app.py line 51. -/
inductive DownloadResult where
  | notFound : DownloadResult
  | ioError (msg : String) : DownloadResult
  | content (s : String) : DownloadResult

/-- Outcomes of the storage I/O calls a single handler invocation performs.
`available` is `AZURE_STORAGE_AVAILABLE and blob_service_client` (lines 41,
69); `download` is the blob read (line 50); `createContainer` and `upload`
are the container creation (line 76) and `upload_blob` (line 88), with
`Except.error` modelling a raised exception.  The upload outcome is
independent of the uploaded content here, since no claim relates the two. -/
structure StorageEnv where
  available : Bool
  download : DownloadResult
  createContainer : Except String Unit
  upload : Except String Unit

/-- Embeds `load_request_log` (src/function_app.py lines 36-63) exactly at
the level the code works at — Python values, i.e. JSON: storage unavailable,
a missing blob (`ResourceNotFoundError`), a download error and malformed
JSON (the latter two both caught by the inner `except Exception` at lines
57-59) all yield the empty dict `\x7b\x7d` (`Json.obj []`); any blob content
`json.loads` accepts is returned as the deserialized value, unchanged (lines
50-53) — including the program's own persisted snapshots, whose `_debug` key
holds lifecycle markers rather than captured-request records. -/
def load_request_log_raw (env : StorageEnv) : Json :=
  if env.available then
    match env.download with
    | DownloadResult.notFound => Json.obj []
    | DownloadResult.ioError _ => Json.obj []
    | DownloadResult.content s =>
      match json_loads s with
      | some j => j
      | none => Json.obj []
  else Json.obj []

/-- The loaded log through the typed view: `load_request_log_raw` followed
by `decodeLog`.  The clear-handler claims consume the snapshot through this
view, which restricts attention to deserialized values of the typed
`RequestLog` shape (an object of arrays of captured-record objects); the
faithful value-level model of the code's load is `load_request_log_raw`. -/
def load_request_log (env : StorageEnv) : RequestLog :=
  match decodeLog (load_request_log_raw env) with
  | some log => log
  | none => []

/-- The body of `save_request_log` (src/function_app.py lines 68-89) without
its outermost exception handler: an unavailable store returns early (lines
69-71); a container-creation exception is caught by its own inner handler at
lines 75-82 and never aborts the save; a raised `upload_blob` propagates. -/
def save_request_log_attempt (env : StorageEnv) (_log : RequestLog) : Except String Unit :=
  if env.available then
    match env.createContainer with
    | _ =>
      match env.upload with
      | Except.ok _ => Except.ok ()
      | Except.error e => Except.error e
  else Except.ok ()

/-- Embeds `save_request_log` (src/function_app.py lines 65-93): the
outermost `except Exception` at lines 91-93 catches every error from the
attempt, logs it and falls through, so the function always returns
normally. -/
def save_request_log (env : StorageEnv) (log : RequestLog) : Except String Unit :=
  match save_request_log_attempt env log with
  | Except.ok _ => Except.ok ()
  | Except.error _ => Except.ok ()

/-! ## The retention sweep -/

/-- Python's string `<` (strict code-point lexicographic order), used by the
sweep's comparison `req.get('timestamp', '') > cutoff_iso`. -/
def charListLt : List Char → List Char → Bool
  | [], [] => false
  | [], _ :: _ => true
  | _ :: _, [] => false
  | a :: as, b :: bs =>
    if a.toNat < b.toNat then true
    else if b.toNat < a.toNat then false
    else charListLt as bs

/-- String comparison as Python performs it on ISO-8601 timestamps. -/
def pyStrLt (s t : String) : Bool := charListLt s.data t.data

/-- Embeds `cleanup_old_requests` (src/function_app.py lines 95-131) as a
function of the cutoff string `cutoff_iso = (utcnow() - 1 hour).isoformat()
+ "Z"` computed at lines 100-101.  Returns the swept log and
`total_removed`.  The `_debug` key is skipped (line 106); a kept record must
satisfy `req['timestamp'] > cutoff_iso` (line 113; the `isinstance` guards
hold by typing here); a key left empty is deleted (lines 122-123). -/
def cleanup_old_requests (cutoff_iso : String) (log : RequestLog) : RequestLog × Nat :=
  match log with
  | [] => (([] : List (String × List Record)), 0)
  | (k, v) :: rest =>
    let r := cleanup_old_requests cutoff_iso rest
    if k = "_debug" then (((k, v) :: r.1 : List (String × List Record)), r.2)
    else
      let kept := v.filter (fun rec => pyStrLt cutoff_iso rec.timestamp)
      let removed := v.length - kept.length
      if kept.length = 0 then (r.1, r.2 + removed)
      else (((k, kept) :: r.1 : List (String × List Record)), r.2 + removed)

/-! ## The capture endpoints -/

/-- The inbound request as the handlers consume it. -/
structure HttpRequest where
  method : String
  params : List (String × String)
  headers : List (String × String)
  bodyBytes : List Nat

/-- The JSON acknowledgement body built at src/function_app.py lines 186-191
(src/MockApiFunction/app.py lines 52-56 omit `captured_request`). -/
structure CaptureAck where
  message : String
  path : String
  request_id : Nat
  captured_request : Record

/-- An HTTP response as far as the claims inspect it. -/
structure CaptureResponse where
  status_code : Nat
  ack : CaptureAck

/-- Builds the record of src/function_app.py lines 159-180: `now_iso` is
`datetime.utcnow().isoformat() + "Z"` at capture time. -/
def build_record (now_iso instanceId instanceStart path : String)
    (req : HttpRequest) : Record :=
  { timestamp := now_iso, method := req.method, path := path,
    query := req.params, headers := req.headers,
    body := parse_body req.bodyBytes,
    instance_id := instanceId, instance_start := instanceStart }

/-- The append-and-acknowledge step shared by both capture handlers
(src/function_app.py lines 182-189, src/MockApiFunction/app.py lines 44-55):
`REQUEST_LOG.setdefault(path, []).append(record)` followed by
`request_id = len(REQUEST_LOG[path]) - 1`. -/
def append_and_ack (log : RequestLog) (path : String) (record : Record) :
    RequestLog × Nat :=
  let log' := RequestLog.setdefaultAppend log path record
  (log', (RequestLog.getD log' path).length - 1)

/-- Embeds the success path of `main_mock_endpoint` (src/function_app.py
lines 146-202): sweep, build the record, append under the fixed key
`"MockApiFunction"`, call `save_request_log` (whose outcome is discarded —
it cannot raise), and answer 200 with the acknowledgement.  The embedded
operations are total, so the `except` branch at lines 204-210 (status 500)
is unreachable in the model. -/
def main_mock_endpoint (env : StorageEnv) (now_iso cutoff_iso instanceId instanceStart : String)
    (req : HttpRequest) (log : RequestLog) : RequestLog × CaptureResponse :=
  let log1 := (cleanup_old_requests cutoff_iso log).1
  let record := build_record now_iso instanceId instanceStart "MockApiFunction" req
  let appended := append_and_ack log1 "MockApiFunction" record
  let _saved := save_request_log env appended.1
  (appended.1,
   { status_code := 200,
     ack := { message := "Mock endpoint captured your request.",
              path := "MockApiFunction", request_id := appended.2,
              captured_request := record } })

/-! ## Clearing a key and the health statistics -/

/-- Result of the `clear_requests` handler as far as the claims inspect it:
the global `REQUEST_LOG` afterwards, the HTTP status, the `success` flag and
the `removed_count` interpolated into the response message. -/
structure ClearResult where
  log : RequestLog
  status_code : Nat
  success : Bool
  removed_count : Nat

/-- Embeds `clear_requests` (src/function_app.py lines 1028-1072): reload a
fresh snapshot; if `path` is present, `removed_count` is the length of its
list (the `isinstance` check holds by typing), the key is deleted, the
global log is replaced by the remaining snapshot
(`REQUEST_LOG.clear(); REQUEST_LOG.update(fresh_data)`) and saved, answering
200/success; otherwise the global log is untouched and the answer is
404/failure. -/
def clear_requests (env : StorageEnv) (path : String) (log : RequestLog) : ClearResult :=
  let fresh := load_request_log env
  if RequestLog.containsKey fresh path then
    let removed := (RequestLog.getD fresh path).length
    let fresh' := RequestLog.eraseKey fresh path
    let _saved := save_request_log env fresh'
    { log := fresh', status_code := 200, success := true, removed_count := removed }
  else
    { log := log, status_code := 404, success := false, removed_count := 0 }

/-- The `requests_captured` statistic of the health endpoint
(src/function_app.py line 1106): `sum(len(v) if isinstance(v, list) else 0
for v in REQUEST_LOG.values())` — a sum over every key. -/
def requests_captured (log : RequestLog) : Nat :=
  (log.map (fun p => p.2.length)).sum

/-- Modelled from the spec: the total-request-count statistic as the spec
defines it, the sum of sequence lengths over all keys other than the
reserved `"_debug"` key.  Stated from the spec's words for comparison with
`requests_captured`. -/
def requests_captured_spec (log : RequestLog) : Nat :=
  ((log.filter (fun p => p.1 != "_debug")).map (fun p => p.2.length)).sum

/-- Number of entries stored under `"_debug"` bindings. -/
def debugEntryCount (log : RequestLog) : Nat :=
  ((log.filter (fun p => p.1 == "_debug")).map (fun p => p.2.length)).sum

/-! ## Concrete sample data for witnesses and counterexamples -/

/-- A representative captured record. -/
def sampleRecord : Record :=
  { timestamp := "2024-06-01T10:00:00Z", method := "GET", path := "MockApiFunction",
    query := [], headers := [("accept", "application/json")], body := Json.null,
    instance_id := "abc12345", instance_start := "2024-06-01T09:00:00Z" }

/-- The cutoff used in the sweep examples (`utcnow() - 1 hour` rendered). -/
def sweepCutoff : String := "2024-06-01T12:00:00Z"

/-- A record whose age is exactly the retention window: its timestamp equals
the cutoff. -/
def boundaryRecord : Record := { sampleRecord with timestamp := sweepCutoff }

/-- A record strictly newer than the cutoff. -/
def freshRecord : Record := { sampleRecord with timestamp := "2024-06-01T13:00:00Z" }

/-- A log exercising the sweep: one stale and one fresh record under `"k"`,
plus a `_debug` entry older than the cutoff. -/
def sweepSampleLog : RequestLog :=
  [("k", [sampleRecord, freshRecord]), ("_debug", [sampleRecord])]

/-- Body bytes of `"\x7bnot json"`: not valid JSON, valid UTF-8. -/
def notJsonBytes : List Nat := [0x7b, 110, 111, 116, 32, 106, 115, 111, 110]

/-- Body bytes of `"\x7b\"a\": 1\x7d"`: a valid JSON object. -/
def jsonObjBytes : List Nat := [0x7b, 0x22, 97, 0x22, 0x3a, 32, 49, 0x7d]

/-- A persisted snapshot holding one record under key `"a"`. -/
def snapshotA : String :=
  "\x7b\"a\": [\x7b\"timestamp\": \"2024-06-01T10:00:00Z\", \"method\": \"GET\", " ++
  "\"path\": \"a\", \"query\": \x7b\x7d, \"headers\": \x7b\"accept\": \"application/json\"\x7d, " ++
  "\"body\": null, \"instance_id\": \"abc12345\", \"instance_start\": \"2024-06-01T09:00:00Z\"\x7d]\x7d"

/-- The record `snapshotA` deserializes to. -/
def snapshotARecord : Record :=
  { timestamp := "2024-06-01T10:00:00Z", method := "GET", path := "a",
    query := [], headers := [("accept", "application/json")], body := Json.null,
    instance_id := "abc12345", instance_start := "2024-06-01T09:00:00Z" }

/-- Environment whose blob is absent. -/
def envNotFound : StorageEnv :=
  { available := true, download := DownloadResult.notFound,
    createContainer := Except.ok (), upload := Except.ok () }

/-- Environment whose download raises. -/
def envIoError : StorageEnv :=
  { available := true, download := DownloadResult.ioError "connection reset",
    createContainer := Except.ok (), upload := Except.ok () }

/-- Environment whose blob content is not valid JSON. -/
def envMalformed : StorageEnv :=
  { available := true, download := DownloadResult.content "\x7bnot json",
    createContainer := Except.ok (), upload := Except.ok () }

/-- Environment whose blob holds `snapshotA`; its upload fails, which no
claim's success path may depend on. -/
def envContentA : StorageEnv :=
  { available := true, download := DownloadResult.content snapshotA,
    createContainer := Except.ok (), upload := Except.error "server busy" }

/-- An in-memory log holding a record that was never persisted. -/
def unsavedLog : RequestLog := [("unsaved", [sampleRecord]), ("a", [sampleRecord, freshRecord])]

/-- The JSON value of the record in `snapshotA`, as `json.loads` yields it. -/
def snapshotARecordJson : Json :=
  Json.obj [("timestamp", Json.str "2024-06-01T10:00:00Z"),
            ("method", Json.str "GET"),
            ("path", Json.str "a"),
            ("query", Json.obj []),
            ("headers", Json.obj [("accept", Json.str "application/json")]),
            ("body", Json.null),
            ("instance_id", Json.str "abc12345"),
            ("instance_start", Json.str "2024-06-01T09:00:00Z")]

/-- An instance-start lifecycle marker, shaped as the module writes it under
`_debug` at src/function_app.py lines 135-143: no `method`, `path`, `body`
or `instance_start` fields. -/
def debugMarkerJson : Json :=
  Json.obj [("timestamp", Json.str "2024-06-01T09:00:00Z"),
            ("message", Json.str "Instance started (ID: abc12345) - Azure Storage enabled"),
            ("instance_id", Json.str "abc12345"),
            ("website_instance_id", Json.str "Not set"),
            ("storage_enabled", Json.bool true),
            ("container_name", Json.str "mock-api-data"),
            ("note", Json.str "Using Azure Blob Storage for persistence across instances")]

/-- Blob text shaped exactly as the program persists its log: one captured
record under `"a"` plus the `_debug` lifecycle marker. -/
def snapshotWithDebug : String :=
  "\x7b\"a\": [\x7b\"timestamp\": \"2024-06-01T10:00:00Z\", \"method\": \"GET\", " ++
  "\"path\": \"a\", \"query\": \x7b\x7d, \"headers\": \x7b\"accept\": \"application/json\"\x7d, " ++
  "\"body\": null, \"instance_id\": \"abc12345\", \"instance_start\": \"2024-06-01T09:00:00Z\"\x7d], " ++
  "\"_debug\": [\x7b\"timestamp\": \"2024-06-01T09:00:00Z\", " ++
  "\"message\": \"Instance started (ID: abc12345) - Azure Storage enabled\", " ++
  "\"instance_id\": \"abc12345\", \"website_instance_id\": \"Not set\", " ++
  "\"storage_enabled\": true, \"container_name\": \"mock-api-data\", " ++
  "\"note\": \"Using Azure Blob Storage for persistence across instances\"\x7d]\x7d"

/-- The value `json.loads` yields for `snapshotWithDebug`. -/
def snapshotWithDebugJson : Json :=
  Json.obj [("a", Json.arr [snapshotARecordJson]),
            ("_debug", Json.arr [debugMarkerJson])]

/-- Environment whose blob holds the program-shaped snapshot
`snapshotWithDebug`. -/
def envSnapshotDebug : StorageEnv :=
  { available := true, download := DownloadResult.content snapshotWithDebug,
    createContainer := Except.ok (), upload := Except.ok () }

/-! ## Association-list lemmas -/

/-- Appending via `setdefaultAppend` extends exactly the sequence of `k`. -/
theorem RequestLog.getD_setdefaultAppend (log : RequestLog) (k : String) (r : Record) :
    RequestLog.getD (RequestLog.setdefaultAppend log k r) k =
      RequestLog.getD log k ++ [r] := by
  induction log with
  | nil => simp [RequestLog.setdefaultAppend, RequestLog.getD]
  | cons p rest ih =>
      obtain ⟨k', v⟩ := p
      by_cases h : k' = k <;>
        simp [RequestLog.setdefaultAppend, RequestLog.getD, h, ih]

/-- After `eraseKey`, the key is gone. -/
theorem RequestLog.containsKey_eraseKey (log : RequestLog) (k : String) :
    RequestLog.containsKey (RequestLog.eraseKey log k) k = false := by
  induction log with
  | nil => rfl
  | cons p rest ih =>
      obtain ⟨k', v⟩ := p
      by_cases h : k' = k <;>
        simp [RequestLog.eraseKey, RequestLog.containsKey, h, ih]

/-- After `eraseKey`, lookup returns the empty default. -/
theorem RequestLog.getD_eraseKey (log : RequestLog) (k : String) :
    RequestLog.getD (RequestLog.eraseKey log k) k = [] := by
  induction log with
  | nil => rfl
  | cons p rest ih =>
      obtain ⟨k', v⟩ := p
      by_cases h : k' = k <;>
        simp [RequestLog.eraseKey, RequestLog.getD, h, ih]

/-- A key outside the key list is not found. -/
theorem RequestLog.containsKey_eq_false_of_not_mem (log : RequestLog) (k : String)
    (h : k ∉ log.map Prod.fst) : RequestLog.containsKey log k = false := by
  induction log with
  | nil => rfl
  | cons p rest ih =>
      obtain ⟨k', v⟩ := p
      simp only [List.map_cons, List.mem_cons] at h
      push_neg at h
      by_cases hk : k' = k
      · exact absurd hk.symm h.1
      · simp [RequestLog.containsKey, hk, ih h.2]

/-! ## Sweep lemmas -/

/-- The sweep never introduces a key: a key absent before is absent (and
empty) afterwards. -/
theorem cleanup_preserves_absent (c : String) (log : RequestLog) (k : String)
    (h : RequestLog.containsKey log k = false) :
    RequestLog.containsKey (cleanup_old_requests c log).1 k = false
    ∧ RequestLog.getD (cleanup_old_requests c log).1 k = [] := by
  induction log with
  | nil => exact ⟨rfl, rfl⟩
  | cons p rest ih =>
      obtain ⟨k', v⟩ := p
      by_cases hk : k' = k
      · simp [RequestLog.containsKey, hk] at h
      · simp only [RequestLog.containsKey, if_neg hk] at h
        obtain ⟨ih1, ih2⟩ := ih h
        by_cases hd : k' = "_debug"
        · subst hd
          simpa [cleanup_old_requests, RequestLog.containsKey,
            RequestLog.getD, hk] using ⟨ih1, ih2⟩
        · by_cases hlen : (v.filter (fun rec => pyStrLt c rec.timestamp)).length = 0 <;>
            simpa [cleanup_old_requests, hd, hlen, RequestLog.containsKey,
              RequestLog.getD, hk] using ⟨ih1, ih2⟩

/-- On a dict-shaped log (distinct keys), the sweep filters the sequence of
every non-reserved key down to its strictly-newer-than-cutoff records. -/
theorem cleanup_getD (c : String) (log : RequestLog) (k : String)
    (hnd : (log.map Prod.fst).Nodup) (hk : k ≠ "_debug") :
    RequestLog.getD (cleanup_old_requests c log).1 k
      = (RequestLog.getD log k).filter (fun rec => pyStrLt c rec.timestamp) := by
  induction log with
  | nil => rfl
  | cons p rest ih =>
      obtain ⟨k', v⟩ := p
      simp only [List.map_cons, List.nodup_cons] at hnd
      obtain ⟨hnotin, hnd'⟩ := hnd
      by_cases hkk : k' = k
      · subst hkk
        have habs : RequestLog.containsKey rest k' = false :=
          RequestLog.containsKey_eq_false_of_not_mem rest k' hnotin
        have habs' := (cleanup_preserves_absent c rest k' habs).2
        by_cases hlen : (v.filter (fun rec => pyStrLt c rec.timestamp)).length = 0
        · have hemp : v.filter (fun rec => pyStrLt c rec.timestamp) = [] :=
            List.length_eq_zero.mp hlen
          simp [cleanup_old_requests, hk, hlen, RequestLog.getD, habs', hemp]
        · simp [cleanup_old_requests, hk, hlen, RequestLog.getD]
      · by_cases hd : k' = "_debug"
        · subst hd
          simp [cleanup_old_requests, RequestLog.getD, hkk, ih hnd']
        · by_cases hlen : (v.filter (fun rec => pyStrLt c rec.timestamp)).length = 0 <;>
            simp [cleanup_old_requests, hd, hlen, RequestLog.getD, hkk, ih hnd']

/-- On a dict-shaped log, a non-reserved key survives the sweep exactly when
it was present and keeps at least one strictly-newer-than-cutoff record. -/
theorem cleanup_containsKey (c : String) (log : RequestLog) (k : String)
    (hnd : (log.map Prod.fst).Nodup) (hk : k ≠ "_debug") :
    (RequestLog.containsKey (cleanup_old_requests c log).1 k = true ↔
      (RequestLog.containsKey log k = true
        ∧ (RequestLog.getD log k).filter (fun rec => pyStrLt c rec.timestamp) ≠ [])) := by
  induction log with
  | nil => simp [cleanup_old_requests, RequestLog.containsKey]
  | cons p rest ih =>
      obtain ⟨k', v⟩ := p
      simp only [List.map_cons, List.nodup_cons] at hnd
      obtain ⟨hnotin, hnd'⟩ := hnd
      by_cases hkk : k' = k
      · subst hkk
        have habs : RequestLog.containsKey rest k' = false :=
          RequestLog.containsKey_eq_false_of_not_mem rest k' hnotin
        have habs1 := (cleanup_preserves_absent c rest k' habs).1
        by_cases hlen : (v.filter (fun rec => pyStrLt c rec.timestamp)).length = 0
        · have hemp : v.filter (fun rec => pyStrLt c rec.timestamp) = [] :=
            List.length_eq_zero.mp hlen
          simp [cleanup_old_requests, hk, hlen, RequestLog.containsKey,
            RequestLog.getD, habs1, hemp]
        · have hne : v.filter (fun rec => pyStrLt c rec.timestamp) ≠ [] := by
            intro hh; exact hlen (by simp [hh])
          simp [cleanup_old_requests, hk, hlen, RequestLog.containsKey,
            RequestLog.getD, hne]
      · by_cases hd : k' = "_debug"
        · subst hd
          simpa [cleanup_old_requests, RequestLog.containsKey,
            RequestLog.getD, hkk] using ih hnd'
        · by_cases hlen : (v.filter (fun rec => pyStrLt c rec.timestamp)).length = 0 <;>
            simpa [cleanup_old_requests, hd, hlen, RequestLog.containsKey,
              RequestLog.getD, hkk] using ih hnd'

/-- The sweep leaves the `_debug` sequence untouched. -/
theorem cleanup_getD_debug (c : String) (log : RequestLog) :
    RequestLog.getD (cleanup_old_requests c log).1 "_debug"
      = RequestLog.getD log "_debug" := by
  induction log with
  | nil => rfl
  | cons p rest ih =>
      obtain ⟨k', v⟩ := p
      by_cases hd : k' = "_debug"
      · subst hd; simp [cleanup_old_requests, RequestLog.getD, ih]
      · by_cases hlen : (v.filter (fun rec => pyStrLt c rec.timestamp)).length = 0 <;>
          simp [cleanup_old_requests, hd, hlen, RequestLog.getD, ih]

/-- The sweep's return value counts every removed record across the
non-reserved keys. -/
theorem cleanup_count (c : String) (log : RequestLog) :
    (cleanup_old_requests c log).2
      = (log.map (fun p => if p.1 = "_debug" then 0
          else p.2.length
            - (p.2.filter (fun rec => pyStrLt c rec.timestamp)).length)).sum := by
  induction log with
  | nil => rfl
  | cons p rest ih =>
      obtain ⟨k', v⟩ := p
      by_cases hd : k' = "_debug"
      · simp [cleanup_old_requests, hd, ih]
      · by_cases hlen : (v.filter (fun rec => pyStrLt c rec.timestamp)).length = 0 <;>
          simp [cleanup_old_requests, hd, hlen, ih] <;> omega

/-! ## Claim C1 — append then query -/

/-- **C1**: appending a record under a key adds it as the last element of
that key's sequence (creating the sequence if the key was absent), and the
acknowledged `request_id` equals the length of the key's sequence after the
append minus one — the zero-based index of the new record.  Stated for the
shared append-and-acknowledge step of both capture handlers and for the full
`main_mock_endpoint` handler with its fixed key. -/
theorem append_then_query (log : RequestLog) (k : String) (r : Record)
    (env : StorageEnv) (now cutoff iid ist : String) (req : HttpRequest) :
    RequestLog.getD (append_and_ack log k r).1 k = RequestLog.getD log k ++ [r]
    ∧ (append_and_ack log k r).2
        = (RequestLog.getD (append_and_ack log k r).1 k).length - 1
    ∧ (append_and_ack log k r).2 = (RequestLog.getD log k).length
    ∧ (main_mock_endpoint env now cutoff iid ist req log).2.ack.request_id
        = (RequestLog.getD (main_mock_endpoint env now cutoff iid ist req log).1
            "MockApiFunction").length - 1
    ∧ RequestLog.getD (main_mock_endpoint env now cutoff iid ist req log).1
          "MockApiFunction"
        = RequestLog.getD (cleanup_old_requests cutoff log).1 "MockApiFunction"
            ++ [build_record now iid ist "MockApiFunction" req] := by
  have h := RequestLog.getD_setdefaultAppend log k r
  have h2 := RequestLog.getD_setdefaultAppend (cleanup_old_requests cutoff log).1
    "MockApiFunction" (build_record now iid ist "MockApiFunction" req)
  refine ⟨h, rfl, ?_, rfl, h2⟩
  simp [append_and_ack, h]

/-! ## Claim C2 — retention sweep boundary -/

/-- **C2** counterexample: a record whose timestamp equals the cutoff
(`now - retention window`) exactly is *removed* by the sweep, not retained —
the code keeps only records with `timestamp > cutoff_iso` — so its key is
deleted and the removal is counted although the record is not strictly older
than the cutoff. -/
theorem sweep_removes_record_at_exact_cutoff :
    pyStrLt boundaryRecord.timestamp sweepCutoff = false
    ∧ (cleanup_old_requests sweepCutoff [("k", [boundaryRecord])]).2 = 1
    ∧ RequestLog.containsKey
        (cleanup_old_requests sweepCutoff [("k", [boundaryRecord])]).1 "k" = false :=
  ⟨rfl, rfl, rfl⟩

/-- **C2** (amended): for every non-reserved key of a dict-shaped log
(distinct keys), the sweep keeps exactly the records whose timestamp is
strictly *greater* than `now - retention window` — a record whose timestamp
equals the cutoff exactly, i.e. at the maximum allowed age, is removed, not
retained — removes keys whose sequence becomes empty, leaves `_debug`
untouched, and returns the total number of records removed. -/
theorem sweep_retention_semantics (c : String) (log : RequestLog) (k : String)
    (hnd : (log.map Prod.fst).Nodup) (hk : k ≠ "_debug") :
    RequestLog.getD (cleanup_old_requests c log).1 k
      = (RequestLog.getD log k).filter (fun rec => pyStrLt c rec.timestamp)
    ∧ (RequestLog.containsKey (cleanup_old_requests c log).1 k = true ↔
        (RequestLog.containsKey log k = true
          ∧ (RequestLog.getD log k).filter (fun rec => pyStrLt c rec.timestamp) ≠ []))
    ∧ RequestLog.getD (cleanup_old_requests c log).1 "_debug"
        = RequestLog.getD log "_debug"
    ∧ (cleanup_old_requests c log).2
        = (log.map (fun p => if p.1 = "_debug" then 0
            else p.2.length
              - (p.2.filter (fun rec => pyStrLt c rec.timestamp)).length)).sum :=
  ⟨cleanup_getD c log k hnd hk, cleanup_containsKey c log k hnd hk,
   cleanup_getD_debug c log, cleanup_count c log⟩

/-- Witness for the amended C2 theorem on a concrete log: the stale record
under `"k"` is swept, the strictly newer one survives, and the stale
`_debug` entry is untouched. -/
theorem sweep_retention_semantics_witness :
    RequestLog.getD (cleanup_old_requests sweepCutoff sweepSampleLog).1 "k"
        = (RequestLog.getD sweepSampleLog "k").filter
            (fun rec => pyStrLt sweepCutoff rec.timestamp)
    ∧ RequestLog.getD (cleanup_old_requests sweepCutoff sweepSampleLog).1 "_debug"
        = RequestLog.getD sweepSampleLog "_debug"
    ∧ RequestLog.getD (cleanup_old_requests sweepCutoff sweepSampleLog).1 "k"
        = [freshRecord] :=
  ⟨(sweep_retention_semantics sweepCutoff sweepSampleLog "k"
      (by decide) (by decide)).1,
   (sweep_retention_semantics sweepCutoff sweepSampleLog "k"
      (by decide) (by decide)).2.2.1,
   rfl⟩

/-! ## Claim C3 — empty body -/

/-- **C3** counterexample: capturing an empty body stores the empty string,
not the absent value — `b"".decode("utf-8")` succeeds and returns `""`, so
the fallback branch stores `""` rather than `None`. -/
theorem empty_body_stored_as_empty_string :
    parse_body [] = Json.str "" ∧ Json.str "" ≠ Json.null :=
  ⟨rfl, fun h => Json.noConfusion h⟩

/-- **C3** (amended): the text-decode fallback stores the decoded string for
every body that `get_json` rejects but that decodes as UTF-8 — the empty
body included, which is stored as the empty string — and stores the absent
value (`None`) exactly when UTF-8 decoding fails. -/
theorem body_fallback_semantics (bytes : List Nat) (s : String) :
    (get_json bytes = none → utf8Decode bytes = some s →
      parse_body bytes = Json.str s)
    ∧ (utf8Decode bytes = none → parse_body bytes = Json.null) := by
  constructor
  · intro h1 h2
    simp [parse_body, h1, h2]
  · intro h
    have hj : get_json bytes = none := by simp [get_json, h]
    simp [parse_body, hj, h]

/-- Witness for the amended C3 theorem: the empty body is stored as the
empty string; an undecodable body (the lone byte 0xFF) is stored as
`None`. -/
theorem body_fallback_semantics_witness :
    parse_body [] = Json.str "" ∧ parse_body [0xFF] = Json.null :=
  ⟨(body_fallback_semantics [] "").1 rfl rfl,
   (body_fallback_semantics [0xFF] "").2 rfl⟩

/-! ## Claim C4 — health statistics and `_debug` -/

/-- **C4** counterexample: the health endpoint's `requests_captured` counts
`_debug` entries: on a log holding one instance-start marker under `_debug`
and nothing else it reports 1, while the spec's sum over keys other than
`_debug` is 0. -/
theorem requests_captured_counts_debug :
    requests_captured [("_debug", [sampleRecord])]
        ≠ requests_captured_spec [("_debug", [sampleRecord])]
    ∧ requests_captured [("_debug", [sampleRecord])] = 1
    ∧ requests_captured_spec [("_debug", [sampleRecord])] = 0 :=
  ⟨by decide, rfl, rfl⟩

/-- **C4** (amended): `requests_captured` sums the sequence lengths of *all*
keys, the reserved `_debug` key included: for every log state it equals the
spec's non-`_debug` total plus the number of `_debug` entries. -/
theorem requests_captured_splits (log : RequestLog) :
    requests_captured log = requests_captured_spec log + debugEntryCount log := by
  induction log with
  | nil => rfl
  | cons p rest ih =>
      obtain ⟨k, v⟩ := p
      by_cases h : k = "_debug" <;>
        simp [requests_captured, requests_captured_spec, debugEntryCount,
          h, List.filter_cons] at ih ⊢ <;>
        omega

/-! ## Claim C5 — clear on absent vs present key -/

/-- **C5**: clearing a key absent from the freshly reloaded log is not an
internal error: the handler answers 404 with `success=false`, removing
nothing and leaving the in-memory log untouched; clearing a present key
answers 200 with `success=true` and reports the number of records the key
held in the snapshot. -/
theorem clear_absent_vs_present (env : StorageEnv) (log : RequestLog) (path : String) :
    (RequestLog.containsKey (load_request_log env) path = false →
      (clear_requests env path log).status_code = 404
      ∧ (clear_requests env path log).success = false
      ∧ (clear_requests env path log).removed_count = 0
      ∧ (clear_requests env path log).log = log)
    ∧ (RequestLog.containsKey (load_request_log env) path = true →
      (clear_requests env path log).status_code = 200
      ∧ (clear_requests env path log).success = true
      ∧ (clear_requests env path log).removed_count
          = (RequestLog.getD (load_request_log env) path).length) := by
  constructor
  · intro h
    simp [clear_requests, h]
  · intro h
    simp [clear_requests, h]

set_option maxRecDepth 8000 in
/-- Witness for C5 against a snapshot holding one record under `"a"`:
clearing `"missing"` yields 404/failure/0 and clearing `"a"` yields
200/success/1. -/
theorem clear_absent_vs_present_witness :
    ((clear_requests envContentA "missing" unsavedLog).status_code = 404
      ∧ (clear_requests envContentA "missing" unsavedLog).success = false
      ∧ (clear_requests envContentA "missing" unsavedLog).removed_count = 0
      ∧ (clear_requests envContentA "missing" unsavedLog).log = unsavedLog)
    ∧ ((clear_requests envContentA "a" unsavedLog).status_code = 200
      ∧ (clear_requests envContentA "a" unsavedLog).success = true
      ∧ (clear_requests envContentA "a" unsavedLog).removed_count
          = (RequestLog.getD (load_request_log envContentA) "a").length) :=
  ⟨(clear_absent_vs_present envContentA unsavedLog "missing").1 rfl,
   (clear_absent_vs_present envContentA unsavedLog "a").2 rfl⟩

/-! ## Claim C6 — clear then query -/

/-- **C6**: after a successful clear of a key, the key is entirely removed
from the mapping: lookup returns the empty sequence and the key is not among
the mapping's keys (it is not present with an empty sequence). -/
theorem clear_then_query (env : StorageEnv) (log : RequestLog) (k : String)
    (h : RequestLog.containsKey (load_request_log env) k = true) :
    RequestLog.getD (clear_requests env k log).log k = []
    ∧ RequestLog.containsKey (clear_requests env k log).log k = false := by
  have h1 : (clear_requests env k log).log
      = RequestLog.eraseKey (load_request_log env) k := by
    simp [clear_requests, h]
  rw [h1]
  exact ⟨RequestLog.getD_eraseKey _ _, RequestLog.containsKey_eraseKey _ _⟩

set_option maxRecDepth 8000 in
/-- Witness for C6: clearing `"a"` against the one-record snapshot leaves
`"a"` absent and empty. -/
theorem clear_then_query_witness :
    RequestLog.getD (clear_requests envContentA "a" unsavedLog).log "a" = []
    ∧ RequestLog.containsKey (clear_requests envContentA "a" unsavedLog).log "a"
        = false :=
  clear_then_query envContentA unsavedLog "a" rfl

/-! ## Claim C7 — JSON first, text fallback -/

/-- **C7**: body parsing tries JSON first and falls back to UTF-8 text,
first success wins: a body `get_json` parses is stored as the parsed JSON
value, and a body `get_json` rejects but UTF-8 decoding accepts is stored as
the decoded string — never surfaced as a parse error. -/
theorem body_json_first_text_fallback (bytes : List Nat) (j : Json) (s : String) :
    (get_json bytes = some j → parse_body bytes = j)
    ∧ (get_json bytes = none → utf8Decode bytes = some s →
        parse_body bytes = Json.str s) := by
  constructor
  · intro h
    simp [parse_body, h]
  · intro h1 h2
    simp [parse_body, h1, h2]

/-- Witness for C7: the body bytes of `"\x7bnot json"` are stored as exactly
that text, and a valid JSON object body is stored as its parsed value. -/
theorem body_json_first_text_fallback_witness :
    parse_body notJsonBytes = Json.str "\x7bnot json"
    ∧ parse_body jsonObjBytes = Json.obj [("a", Json.num "1")] :=
  ⟨(body_json_first_text_fallback notJsonBytes Json.null "\x7bnot json").2 rfl rfl,
   (body_json_first_text_fallback jsonObjBytes
      (Json.obj [("a", Json.num "1")]) "").1 rfl⟩

/-! ## Claim C8 — persistence failure never propagates -/

/-- **C8**: a persistence failure never reaches the caller of capture: for
every storage environment — a failing upload included — the capture handler
answers 200 with the acknowledgement message, and `save_request_log`
swallows every error of its attempt, always returning normally. -/
theorem capture_survives_persist_failure (env : StorageEnv)
    (now cutoff iid ist : String) (req : HttpRequest) (log log' : RequestLog) :
    (main_mock_endpoint env now cutoff iid ist req log).2.status_code = 200
    ∧ (main_mock_endpoint env now cutoff iid ist req log).2.ack.message
        = "Mock endpoint captured your request."
    ∧ save_request_log env log' = Except.ok () := by
  refine ⟨rfl, rfl, ?_⟩
  rcases env with ⟨avail, dl, cc, up⟩
  cases avail <;> cases cc <;> cases up <;>
    simp [save_request_log, save_request_log_attempt]

/-! ## Claim C9 — reload is total -/

/-- **C9**: reload is total and never fatal: a missing blob yields the empty
mapping, a download failure yields the empty mapping, blob content
`json.loads` rejects (malformed) is treated the same as absent, and every
blob content `json.loads` accepts replaces the in-memory mapping with
exactly the deserialized value — in particular the program's own persisted
snapshots, `_debug` lifecycle markers included. -/
theorem reload_total (env : StorageEnv) (s : String) (j : Json) :
    (env.download = DownloadResult.notFound → load_request_log_raw env = Json.obj [])
    ∧ (∀ msg, env.download = DownloadResult.ioError msg →
        load_request_log_raw env = Json.obj [])
    ∧ (env.download = DownloadResult.content s → json_loads s = none →
        load_request_log_raw env = Json.obj [])
    ∧ (env.available = true → env.download = DownloadResult.content s →
        json_loads s = some j → load_request_log_raw env = j) := by
  refine ⟨?_, ?_, ?_, ?_⟩
  · intro h
    cases ha : env.available <;> simp [load_request_log_raw, ha, h]
  · intro msg h
    cases ha : env.available <;> simp [load_request_log_raw, ha, h]
  · intro h hp
    cases ha : env.available <;> simp [load_request_log_raw, ha, h, hp]
  · intro ha h hp
    simp [load_request_log_raw, ha, h, hp]

set_option maxRecDepth 20000 in
/-- Witness for C9 on four concrete environments: absent blob, download
error and malformed content all load as the empty dict; a snapshot shaped
exactly as the program persists it — captured records plus the `_debug`
lifecycle marker — loads as its full deserialized value. -/
theorem reload_total_witness :
    load_request_log_raw envNotFound = Json.obj []
    ∧ load_request_log_raw envIoError = Json.obj []
    ∧ load_request_log_raw envMalformed = Json.obj []
    ∧ load_request_log_raw envSnapshotDebug = snapshotWithDebugJson :=
  ⟨(reload_total envNotFound "" Json.null).1 rfl,
   (reload_total envIoError "" Json.null).2.1 "connection reset" rfl,
   (reload_total envMalformed "\x7bnot json" Json.null).2.2.1 rfl rfl,
   (reload_total envSnapshotDebug snapshotWithDebug snapshotWithDebugJson).2.2.2
     rfl rfl rfl⟩

/-! ## Claim C10 — clear replaces the log with the snapshot -/

/-- **C10**: after a successful clear of a key, the entire in-memory log
equals the freshly loaded snapshot with that one key removed — every other
key's sequence is replaced by its persisted version, so in-memory records
that were never persisted are silently discarded. -/
theorem clear_replaces_log_with_snapshot (env : StorageEnv) (log : RequestLog)
    (k : String)
    (h : RequestLog.containsKey (load_request_log env) k = true) :
    (clear_requests env k log).log
      = RequestLog.eraseKey (load_request_log env) k := by
  simp [clear_requests, h]

set_option maxRecDepth 8000 in
/-- Witness for C10: clearing `"a"` with an in-memory log that holds a
never-persisted `"unsaved"` key replaces the log by the snapshot minus
`"a"`, and the unsaved key is gone. -/
theorem clear_replaces_log_with_snapshot_witness :
    (clear_requests envContentA "a" unsavedLog).log
        = RequestLog.eraseKey (load_request_log envContentA) "a"
    ∧ RequestLog.containsKey (clear_requests envContentA "a" unsavedLog).log
        "unsaved" = false :=
  ⟨clear_replaces_log_with_snapshot envContentA unsavedLog "a" rfl, rfl⟩

end SspengMock
